import Mathlib

/-!
Verification of the Streamlit RAG application (`src/streamlit_app.py`).

The application keeps a per-session state (`st.session_state`) holding a chat
transcript, an optional vector-database handle, and two auxiliary keys, and
exposes three state-changing interactions: the build-if-absent step executed on
every page run (lines 259-277), the delete button (`delete_vector_db`,
lines 173-191) and the chat input handler (lines 304-330).  We embed these as
pure functions over an explicit state, with the external services (embedding,
vector search, chat generation) abstracted as oracle parameters, and prove the
claimed properties about them.
-/

namespace RagApp

/-- Role tag of a transcript entry: the source stores `"user"` or `"assistant"`. -/
inductive Role where
  | user
  | assistant
  deriving DecidableEq, Repr

/-- One entry of `st.session_state["messages"]`: a dict with role and content. -/
structure ChatMessage where
  role : Role
  content : String
  deriving DecidableEq, Repr

/-- Header metadata of a chunk: the keys "Header 1" .. "Header 4" produced by the
markdown header splitter, a key being absent encoded as `none`. -/
structure HeaderMeta where
  h1 : Option String := none
  h2 : Option String := none
  h3 : Option String := none
  h4 : Option String := none
  deriving DecidableEq, Repr

/-- The metadata map with none of the keys "Header 1" .. "Header 4" present. -/
def HeaderMeta.empty : HeaderMeta := {}

/-- A chunk produced by `split_documents`: a langchain `Document` carrying section
text and header metadata. -/
structure Chunk where
  page_content : String
  metadata : HeaderMeta
  deriving DecidableEq, Repr

/-- A document produced by `load_documents`: full file text plus its source path. -/
structure Document where
  page_content : String
  source : String
  deriving DecidableEq, Repr

/-- The vector database handle built by `Chroma.from_documents` (line 271): the
collection name, the stored chunks and the embedding model used. -/
structure Index where
  collection_name : String
  chunks : List Chunk
  embedding_model : String
  deriving DecidableEq, Repr

/-- The per-session state: `messages`, `vector_db`, and the two keys that
`delete_vector_db` pops (`pdf_pages`, `file_upload`), plus `use_sample`
initialised at line 230. -/
structure SessionState where
  messages : List ChatMessage
  vector_db : Option Index
  pdf_pages : Option Nat
  file_upload : Option String
  use_sample : Bool
  deriving DecidableEq, Repr

/-- The world: the vector store (the names of its live collections) together
with the Streamlit session state. -/
structure World where
  store : List String
  session : SessionState
  deriving DecidableEq, Repr

/-! ### Markdown header splitting

`split_documents` (lines 199-206) delegates to langchain's
`MarkdownHeaderTextSplitter` with separators `#`..`####` mapped to keys
"Header 1".."Header 4".  That splitter is third-party library code, not part of
this repository, so it is modelled from the spec (section 4.3): content is split
at lines beginning with 1-4 `#` characters, each such line starting a new
section; a section inherits the nearest enclosing header text for each of up to
4 levels as metadata; content preceding the first header becomes a chunk with no
header metadata; header lines themselves are stripped from chunk content. -/

/-- Split a character stream at newline characters; `acc` holds the characters of
the current line in reverse.  Always returns at least one line. -/
def splitLinesAux : List Char → List Char → List (List Char)
  | [], acc => [acc.reverse]
  | c :: rest, acc =>
      if c = '\n' then acc.reverse :: splitLinesAux rest []
      else splitLinesAux rest (c :: acc)

/-- Split a character stream into its lines. -/
def splitLines (cs : List Char) : List (List Char) := splitLinesAux cs []

/-- Join lines back with newline separators; left inverse of `splitLines`. -/
def joinLines : List (List Char) → List Char
  | [] => []
  | [l] => l
  | l :: ls => l ++ '\n' :: joinLines ls

/-- Number of leading `#` characters of a line. -/
def countHashes : List Char → Nat
  | '#' :: rest => countHashes rest + 1
  | _ => 0

/-- Drop the leading `#` characters of a line. -/
def dropHashes : List Char → List Char
  | '#' :: rest => dropHashes rest
  | l => l

/-- Strip leading and trailing spaces. -/
def trimSpaces (cs : List Char) : List Char :=
  ((cs.dropWhile (fun c => c = ' ')).reverse.dropWhile (fun c => c = ' ')).reverse

/-- Modelled from the spec: recognise a well-formed markdown header line, i.e. a
line beginning with 1-4 `#` characters followed by a space (or nothing), and
return its level together with the stripped header text. -/
def headerOf (line : List Char) : Option (Nat × List Char) :=
  let n := countHashes line
  let rest := dropHashes line
  if 1 ≤ n ∧ n ≤ 4 ∧ (rest = [] ∨ rest.head? = some ' ') then
    some (n, trimSpaces rest)
  else none

/-- Record a header of the given level: set its key and clear all deeper levels,
keeping the enclosing (shallower) ones. -/
def updateMeta (m : HeaderMeta) (level : Nat) (text : String) : HeaderMeta :=
  if level = 1 then { h1 := some text }
  else if level = 2 then { h1 := m.h1, h2 := some text }
  else if level = 3 then { h1 := m.h1, h2 := m.h2, h3 := some text }
  else { h1 := m.h1, h2 := m.h2, h3 := m.h3, h4 := some text }

/-- Section collection after the first header has been seen: `sec` accumulates
the lines of the current section, `m` is its header metadata; every later header
flushes the current section (even when empty) and starts a new one. -/
def splitGoBody : List (List Char) → List (List Char) → HeaderMeta → List Chunk
  | [], sec, m => [⟨⟨joinLines sec⟩, m⟩]
  | line :: rest, sec, m =>
      match headerOf line with
      | some (k, text) =>
          ⟨⟨joinLines sec⟩, m⟩ :: splitGoBody rest [] (updateMeta m k ⟨text⟩)
      | none => splitGoBody rest (sec ++ [line]) m

/-- Section collection before any header has been seen: the accumulated preamble
becomes a header-less chunk only when it is nonempty. -/
def splitGoPre : List (List Char) → List (List Char) → List Chunk
  | [], sec => if sec = [] then [] else [⟨⟨joinLines sec⟩, HeaderMeta.empty⟩]
  | line :: rest, sec =>
      match headerOf line with
      | some (k, text) =>
          (if sec = [] then [] else [⟨⟨joinLines sec⟩, HeaderMeta.empty⟩])
            ++ splitGoBody rest [] (updateMeta HeaderMeta.empty k ⟨text⟩)
      | none => splitGoPre rest (sec ++ [line])

/-- Modelled from the spec: `MarkdownHeaderTextSplitter.split_text` over one
document's content. -/
def split_text (content : String) : List Chunk :=
  splitGoPre (splitLines content.data) []

/-- Embeds `split_documents` (lines 199-206): split every document and
concatenate the resulting sections into one flat list. -/
def split_documents (docs : List Document) : List Chunk :=
  docs.flatMap (fun d => split_text d.page_content)

/-- The glob pattern `./*.md` of `load_documents` (line 196): a file directly
under the directory matches when its name ends in `.md`. -/
def isMarkdownName (name : String) : Bool :=
  List.isSuffixOf ".md".data name.data

/-- Embeds `load_documents` (lines 195-197): a directory is a listing of
(file name, file text) pairs; every matching file is loaded into a `Document`.
Returns a plain (possibly empty) list; the loader has no failure path. -/
def load_documents (dir : List (String × String)) : List Document :=
  (dir.filter (fun f => isMarkdownName f.1)).map
    (fun f => { page_content := f.2, source := f.1 })

/-! ### Retrieval-augmented answering (`process_question`, lines 88-170) -/

/-- The RAG prompt template of lines 151-154, with context and question filled
in by `ChatPromptTemplate`. -/
def ragTemplate (context question : String) : String :=
  "Du bist eine künstliche Intelligenz, die in der Universitätsbibliothek (UB) der Technischen Universität Braunscheig (TUBS) arbeitet. Vor diesem Hintergrund, beantworten Sie die Frage NUR auf der Grundlage des folgenden Kontextes:\n    "
    ++ context ++ "\n    Question: " ++ question ++ "\n    "

/-- A call to an external service issued while answering one question. -/
inductive ExtCall where
  | similaritySearch (k : Nat) (query : String)
  | chatGenerate (model : String) (promptText : String)
  | multiQueryRetrieve (query : String)
  deriving DecidableEq, Repr

/-- Whether an external call is a similarity search against the index. -/
def ExtCall.isSimilarity : ExtCall → Bool
  | .similaritySearch _ _ => true
  | _ => false

/-- Whether an external call is a chat-generation call. -/
def ExtCall.isGenerate : ExtCall → Bool
  | .chatGenerate _ _ => true
  | _ => false

/-- Whether an external call is a multi-query (paraphrasing) retrieval. -/
def ExtCall.isMultiQuery : ExtCall → Bool
  | .multiQueryRetrieve _ => true
  | _ => false

/-- Embeds `process_question` (lines 88-170): the retriever is
`as_retriever(search_type="similarity", search_kwargs=k:3)` (lines 132-134); the
multi-query retriever (lines 136-141) is commented out and never used.  The
chain retrieves once, fills the template, and invokes the model once.  The
external services are oracle parameters; the returned log records every
external call in order. -/
def process_question (question : String) (vector_db : Index) (selected_model : String)
    (retrieve : Index → String → Nat → List Chunk) (render : List Chunk → String)
    (generate : String → String → String) : String × List ExtCall :=
  let docs := retrieve vector_db question 3
  let promptText := ragTemplate (render docs) question
  let response := generate selected_model promptText
  (response,
   [ExtCall.similaritySearch 3 question, ExtCall.chatGenerate selected_model promptText])

/-! ### Chat turn (`main`, lines 304-330) -/

/-- Result of one chat turn: updated session state, the error banner shown by the
`except` branch (line 329), the warning shown when no index exists (line 320),
and how many times `process_question` was invoked. -/
structure ChatOutcome where
  state : SessionState
  uiError : Option String
  uiWarning : Option String
  genCalls : Nat
  deriving DecidableEq, Repr

/-- Embeds the chat handler (lines 304-330): the user message is appended first
(line 307); if an index exists, `process_question` runs once and its outcome
(`result`) is either a response, appended as the assistant message (line 324),
or an exception, shown as an error banner (line 329); if no index exists a
warning is shown and neither generation nor an assistant append happens. -/
def chatStep (st : SessionState) (prompt : String) (result : Except String String) :
    ChatOutcome :=
  let st1 : SessionState :=
    { st with messages := st.messages ++ [{ role := Role.user, content := prompt }] }
  match st1.vector_db with
  | some _ =>
      match result with
      | Except.ok response =>
          { state := { st1 with
              messages := st1.messages ++ [{ role := Role.assistant, content := response }] },
            uiError := none, uiWarning := none, genCalls := 1 }
      | Except.error e =>
          { state := st1, uiError := some e, uiWarning := none, genCalls := 1 }
  | none =>
      { state := st1, uiError := none,
        uiWarning := some "Please upload a PDF file first.", genCalls := 0 }

/-! ### Delete button (`delete_vector_db`, lines 173-191) -/

/-- Result of `delete_vector_db`: the updated world plus the success or error
message it displays.  Both branches return normally; the function raises in
neither. -/
structure DeleteOutcome where
  world : World
  uiSuccess : Option String
  uiError : Option String
  deriving DecidableEq, Repr

/-- Embeds `delete_vector_db` (lines 173-191): with a live handle it deletes the
collection from the store and pops `pdf_pages`, `file_upload` and `vector_db`
from the session state (it does not touch `messages`); with `None` it only shows
an error message and changes nothing.  (The `st.rerun()` of line 188 starts a
fresh page run, modelled as a separate `Event.rerun`.) -/
def delete_vector_db (vdb : Option Index) (w : World) : DeleteOutcome :=
  match vdb with
  | some v =>
      { world :=
          { store := w.store.erase v.collection_name,
            session := { w.session with
              pdf_pages := none, file_upload := none, vector_db := none } },
        uiSuccess := some "Collection and temporary files deleted successfully.",
        uiError := none }
  | none =>
      { world := w, uiSuccess := none,
        uiError := some "No vector database found to delete." }

/-! ### Build-if-absent step (`main`, lines 259-277) -/

/-- Result of the page-run build step: the updated world and the error shown when
the corpus directory yields no documents (line 277). -/
structure BuildOutcome where
  world : World
  uiError : Option String
  deriving DecidableEq, Repr

/-- Embeds lines 259-277: only when no index exists, load the selected corpus;
with no documents show "No website data found." and build nothing, otherwise
split into chunks and build the Chroma collection under the fixed name
`"myRAG"` (line 274) with the selected embedding model. -/
def buildIfAbsent (w : World) (dir : List (String × String)) (emb : String) :
    BuildOutcome :=
  match w.session.vector_db with
  | none =>
      let docs := load_documents dir
      if docs.isEmpty then { world := w, uiError := some "No website data found." }
      else
        let idx : Index :=
          { collection_name := "myRAG", chunks := split_documents docs,
            embedding_model := emb }
        { world :=
            { store := w.store.insert "myRAG",
              session := { w.session with vector_db := some idx } },
          uiError := none }
  | some _ => { world := w, uiError := none }

/-- The state-changing interactions of the app: a page run over a corpus
directory with a selected embedding model, a click of the "Reload data" button,
and a chat turn whose generation outcome is `result`. -/
inductive Event where
  | rerun (dir : List (String × String)) (emb : String)
  | deleteClick
  | chat (prompt : String) (result : Except String String)

/-- One step of the session: dispatch an event to its handler. -/
def step (w : World) : Event → World
  | Event.rerun dir emb => (buildIfAbsent w dir emb).world
  | Event.deleteClick => (delete_vector_db w.session.vector_db w).world
  | Event.chat prompt result => { w with session := (chatStep w.session prompt result).state }

/-- Number of well-formed header lines in a document's content. -/
def headerLineCount (content : String) : Nat :=
  (splitLines content.data).countP (fun l => (headerOf l).isSome)

/-- The lines of a document's content that precede its first header line. -/
def preambleLines (content : String) : List (List Char) :=
  (splitLines content.data).takeWhile (fun l => (headerOf l).isNone)

/-! ### Concrete inputs used by counterexamples and witnesses -/

/-- A live index handle as built at line 271. -/
def idx1 : Index := { collection_name := "myRAG", chunks := [], embedding_model := "m" }

/-- A fresh session: empty transcript, no index, auxiliary keys unset. -/
def st0 : SessionState :=
  { messages := [], vector_db := none, pdf_pages := none, file_upload := none,
    use_sample := false }

/-- A session that already holds a live index. -/
def stIdx : SessionState := { st0 with vector_db := some idx1 }

/-- A world with a fresh session and an empty vector store. -/
def w0 : World := { store := [], session := st0 }

/-- A world with a live index, one live collection, and a one-message transcript. -/
def w1 : World :=
  { store := ["myRAG"],
    session := { messages := [{ role := Role.user, content := "hi" }],
                 vector_db := some idx1, pdf_pages := none, file_upload := none,
                 use_sample := false } }

/-- A corpus directory holding the single file of the spec's scenario. -/
def dir1 : List (String × String) :=
  [("intro.md", "# Intro\nHello world.\n## Details\nMore text.")]

/-- The index that the build step constructs from `dir1`. -/
def idx2 : Index :=
  { collection_name := "myRAG", chunks := split_documents (load_documents dir1),
    embedding_model := "nomic" }

/-! ### Helper lemmas about line splitting -/

/-- Line splitting always yields at least one line. -/
theorem splitLinesAux_ne_nil (cs acc : List Char) : splitLinesAux cs acc ≠ [] := by
  induction cs generalizing acc with
  | nil => simp [splitLinesAux]
  | cons c rest ih =>
      rw [splitLinesAux]
      split
      · simp
      · exact ih _

/-- The whole-content split always yields at least one line. -/
theorem splitLines_ne_nil (cs : List Char) : splitLines cs ≠ [] :=
  splitLinesAux_ne_nil cs []

/-- Unfolding `joinLines` over a cons cell with a nonempty tail. -/
theorem joinLines_cons_of_ne_nil (l : List Char) (ls : List (List Char)) (h : ls ≠ []) :
    joinLines (l :: ls) = l ++ '\n' :: joinLines ls := by
  cases ls with
  | nil => exact absurd rfl h
  | cons x xs => rfl

/-- Joining the lines produced by `splitLinesAux` restores the remaining input,
prefixed by the partially accumulated line. -/
theorem joinLines_splitLinesAux (cs acc : List Char) :
    joinLines (splitLinesAux cs acc) = acc.reverse ++ cs := by
  induction cs generalizing acc with
  | nil => simp [splitLinesAux, joinLines]
  | cons c rest ih =>
      rw [splitLinesAux]
      by_cases hc : c = '\n'
      · subst hc
        rw [if_pos rfl, joinLines_cons_of_ne_nil _ _ (splitLinesAux_ne_nil rest []), ih]
        simp
      · rw [if_neg hc, ih]
        simp

/-- Splitting a character stream into lines and joining them back is the
identity. -/
theorem joinLines_splitLines (cs : List Char) : joinLines (splitLines cs) = cs := by
  simpa using joinLines_splitLinesAux cs []

/-- Rebuilding a string from its character data is the identity. -/
theorem stringMk_data (s : String) : String.mk s.data = s := rfl

/-! ### Helper lemmas about the header splitter -/

/-- When no remaining line is a header, the preamble pass accumulates everything
into one header-less chunk (or none, when there is nothing at all). -/
theorem splitGoPre_all_nonheader (lines : List (List Char)) (sec : List (List Char))
    (h : ∀ l ∈ lines, headerOf l = none) :
    splitGoPre lines sec =
      if sec ++ lines = [] then []
      else [⟨⟨joinLines (sec ++ lines)⟩, HeaderMeta.empty⟩] := by
  induction lines generalizing sec with
  | nil => simp [splitGoPre]
  | cons l rest ih =>
      have hl : headerOf l = none := h l (List.mem_cons_self l rest)
      rw [splitGoPre]
      rw [hl]
      rw [ih (sec ++ [l]) (fun x hx => h x (List.mem_cons_of_mem _ hx))]
      simp

/-- Each remaining header line contributes exactly one chunk in the body pass,
plus one chunk for the section already open. -/
theorem splitGoBody_length (lines sec : List (List Char)) (m : HeaderMeta) :
    (splitGoBody lines sec m).length
      = lines.countP (fun l => (headerOf l).isSome) + 1 := by
  induction lines generalizing sec m with
  | nil => simp [splitGoBody]
  | cons l rest ih =>
      rw [splitGoBody]
      cases hl : headerOf l with
      | some p =>
          obtain ⟨k, t⟩ := p
          simp [List.countP_cons, hl, ih]
      | none => simp [List.countP_cons, hl, ih]

/-- Chunk count of the preamble pass: one chunk per header line, plus one when
the already accumulated section together with the leading non-header lines is
nonempty. -/
theorem splitGoPre_length (lines sec : List (List Char)) :
    (splitGoPre lines sec).length
      = lines.countP (fun l => (headerOf l).isSome)
        + (if sec ++ lines.takeWhile (fun l => (headerOf l).isNone) = [] then 0 else 1) := by
  induction lines generalizing sec with
  | nil => by_cases hs : sec = [] <;> simp [splitGoPre, hs]
  | cons l rest ih =>
      rw [splitGoPre]
      cases hl : headerOf l with
      | some p =>
          obtain ⟨k, t⟩ := p
          by_cases hs : sec = [] <;>
            simp [List.countP_cons, List.takeWhile_cons, hl, hs, splitGoBody_length]
      | none => simp [List.countP_cons, List.takeWhile_cons, hl, ih]

/-! ### Claim theorems -/

/-- C1 (counterexample): the claim says the reset action clears the chat
transcript; on a state with a live index and a one-message transcript, clicking
the delete button leaves the transcript nonempty, so the transcript is not
cleared. -/
theorem c1_reset_clears_transcript_cex :
    ¬ ((step w1 Event.deleteClick).session.messages = []) := by decide

/-- C1 (amended): reset destroys the vector-store collection and clears the
index handle (plus the `pdf_pages` and `file_upload` keys), but leaves the chat
transcript unchanged; when no index exists it changes nothing and still
completes without raising (the handler is total and merely shows an error
message). -/
theorem c1_reset_amended (w : World) (i : Index) :
    (w.session.vector_db = some i →
        (step w Event.deleteClick).session.vector_db = none
      ∧ (step w Event.deleteClick).session.messages = w.session.messages
      ∧ (step w Event.deleteClick).store = w.store.erase i.collection_name)
  ∧ (w.session.vector_db = none → step w Event.deleteClick = w) := by
  constructor
  · intro h
    simp [step, delete_vector_db, h]
  · intro h
    simp [step, delete_vector_db, h]

/-- C1 (witness): the amended statement evaluated on a world with a live index
and on a world with none. -/
theorem c1_reset_amended_witness :
    ((step w1 Event.deleteClick).session.vector_db = none
      ∧ (step w1 Event.deleteClick).session.messages = w1.session.messages
      ∧ (step w1 Event.deleteClick).store = w1.store.erase idx1.collection_name)
  ∧ step w0 Event.deleteClick = w0 :=
  ⟨(c1_reset_amended w1 idx1).1 rfl, (c1_reset_amended w0 idx1).2 rfl⟩

/-- C2 (counterexample): the claim says a question submitted with no index
leaves the transcript unchanged; on a fresh session with no index, submitting
"What is X?" changes the transcript (the user message is appended before the
index check at line 314). -/
theorem c2_no_index_transcript_cex :
    ¬ ((chatStep st0 "What is X?" (Except.ok "ignored")).state.messages
        = st0.messages) := by decide

/-- C2 (amended): a question submitted while no index exists appends the user's
message to the transcript, appends no assistant message, performs no generation
call, and surfaces a warning instead of raising any error. -/
theorem c2_no_index_amended (st : SessionState) (prompt : String)
    (result : Except String String) (h : st.vector_db = none) :
    (chatStep st prompt result).state.messages
        = st.messages ++ [{ role := Role.user, content := prompt }]
  ∧ (chatStep st prompt result).uiWarning = some "Please upload a PDF file first."
  ∧ (chatStep st prompt result).uiError = none
  ∧ (chatStep st prompt result).genCalls = 0
  ∧ (chatStep st prompt result).state.vector_db = none := by
  simp [chatStep, h]

/-- C2 (witness): the amended statement evaluated on a fresh session. -/
theorem c2_no_index_amended_witness :
    (chatStep st0 "What is X?" (Except.ok "ignored")).state.messages
        = st0.messages ++ [{ role := Role.user, content := "What is X?" }]
  ∧ (chatStep st0 "What is X?" (Except.ok "ignored")).uiWarning
        = some "Please upload a PDF file first."
  ∧ (chatStep st0 "What is X?" (Except.ok "ignored")).uiError = none
  ∧ (chatStep st0 "What is X?" (Except.ok "ignored")).genCalls = 0
  ∧ (chatStep st0 "What is X?" (Except.ok "ignored")).state.vector_db = none :=
  c2_no_index_amended st0 "What is X?" (Except.ok "ignored") rfl

/-- C3: for every question, `process_question` issues exactly one similarity
search, and it is with k = 3; exactly one chat-generation call; and no
multi-query (paraphrasing) retrieval, for any behavior of the external
retrieval, rendering and generation services. -/
theorem c3_single_retrieval_single_generation (question selected_model : String)
    (vdb : Index) (retrieve : Index → String → Nat → List Chunk)
    (render : List Chunk → String) (generate : String → String → String) :
    ((process_question question vdb selected_model retrieve render generate).2.filter
        ExtCall.isSimilarity = [ExtCall.similaritySearch 3 question])
  ∧ ((process_question question vdb selected_model retrieve render generate).2.countP
        ExtCall.isGenerate = 1)
  ∧ ((process_question question vdb selected_model retrieve render generate).2.countP
        ExtCall.isMultiQuery = 0) :=
  ⟨rfl, rfl, rfl⟩

/-- C4: when answering fails after the question was accepted (the generation
step raises), the user's message for that turn remains appended to the
transcript, no assistant message is appended, the failure is surfaced as an
error banner, and generation was attempted exactly once (no retry). -/
theorem c4_failure_keeps_user_message (st : SessionState) (prompt e : String)
    (i : Index) (h : st.vector_db = some i) :
    (chatStep st prompt (Except.error e)).state.messages
        = st.messages ++ [{ role := Role.user, content := prompt }]
  ∧ (chatStep st prompt (Except.error e)).uiError = some e
  ∧ (chatStep st prompt (Except.error e)).genCalls = 1
  ∧ (chatStep st prompt (Except.error e)).state.vector_db = some i := by
  simp [chatStep, h]

/-- C4 (witness): the statement evaluated on a session with a live index and a
failing generation call. -/
theorem c4_failure_keeps_user_message_witness :
    (chatStep stIdx "Q" (Except.error "boom")).state.messages
        = stIdx.messages ++ [{ role := Role.user, content := "Q" }]
  ∧ (chatStep stIdx "Q" (Except.error "boom")).uiError = some "boom"
  ∧ (chatStep stIdx "Q" (Except.error "boom")).genCalls = 1
  ∧ (chatStep stIdx "Q" (Except.error "boom")).state.vector_db = some idx1 :=
  c4_failure_keeps_user_message stIdx "Q" "boom" idx1 rfl

/-- C5: a document whose content contains zero markdown header lines splits into
exactly one chunk whose content equals the whole document content and whose
metadata carries none of the keys "Header 1" .. "Header 4". -/
theorem c5_no_headers_single_chunk (d : Document)
    (h : ∀ l ∈ splitLines d.page_content.data, headerOf l = none) :
    split_documents [d]
      = [{ page_content := d.page_content, metadata := HeaderMeta.empty }] := by
  have h1 := splitGoPre_all_nonheader (splitLines d.page_content.data) [] h
  rw [if_neg (by simpa using splitLines_ne_nil d.page_content.data)] at h1
  simp only [split_documents, List.flatMap_cons, List.flatMap_nil, List.append_nil,
    split_text, h1, List.nil_append, joinLines_splitLines, stringMk_data]

/-- C5 (witness): the statement evaluated on a concrete header-less document. -/
theorem c5_no_headers_single_chunk_witness :
    split_documents [{ page_content := "Hello world.\nNo headers here.",
                       source := "plain.md" }]
      = [{ page_content := "Hello world.\nNo headers here.",
           metadata := HeaderMeta.empty }] :=
  c5_no_headers_single_chunk
    { page_content := "Hello world.\nNo headers here.", source := "plain.md" }
    (by decide)

/-- C6: for every document, splitting yields exactly one chunk per well-formed
header line, plus one more exactly when content precedes the first header; and
the spec's two-header scenario document yields exactly its two chunks with the
stated header chains. -/
theorem c6_chunk_count_and_scenario (content : String) :
    ((split_text content).length
      = headerLineCount content + (if preambleLines content = [] then 0 else 1))
  ∧ split_text "# Intro\nHello world.\n## Details\nMore text."
      = [{ page_content := "Hello world.", metadata := { h1 := some "Intro" } },
         { page_content := "More text.",
           metadata := { h1 := some "Intro", h2 := some "Details" } }] := by
  constructor
  · simpa [split_text, headerLineCount, preambleLines] using
      splitGoPre_length (splitLines content.data) []
  · decide

/-- C7 (counterexample): the claim says loading a directory with no matching
files fails with `CorpusEmpty` rather than silently returning an empty
sequence; on a directory holding only `notes.txt`, the loader returns the empty
list (it has no failure path at all). -/
theorem c7_empty_corpus_cex : load_documents [("notes.txt", "hello")] = [] := by decide

/-- C7 (amended): for a directory with no files matching the markdown pattern,
`load_documents` returns the empty list, and the caller (the build step of
`main`) detects the empty result, surfaces the error message "No website data
found." to the user, builds no index and changes nothing — a recoverable
condition, not a crash. -/
theorem c7_empty_corpus_amended (dir : List (String × String)) (w : World)
    (emb : String) (h : ∀ f ∈ dir, isMarkdownName f.1 = false) :
    load_documents dir = []
  ∧ (w.session.vector_db = none →
      buildIfAbsent w dir emb
        = { world := w, uiError := some "No website data found." }) := by
  have hl : load_documents dir = [] := by
    simp only [load_documents, List.map_eq_nil_iff, List.filter_eq_nil_iff]
    intro f hf
    simp [h f hf]
  refine ⟨hl, fun h2 => ?_⟩
  simp [buildIfAbsent, h2, hl]

/-- C7 (witness): the amended statement evaluated on a directory with one
non-matching file and a fresh session. -/
theorem c7_empty_corpus_amended_witness :
    load_documents [("notes.txt", "hello")] = []
  ∧ buildIfAbsent w0 [("notes.txt", "hello")] "nomic"
      = { world := w0, uiError := some "No website data found." } :=
  ⟨(c7_empty_corpus_amended [("notes.txt", "hello")] w0 "nomic" (by decide)).1,
   (c7_empty_corpus_amended [("notes.txt", "hello")] w0 "nomic" (by decide)).2 rfl⟩

/-- C8: there is zero or one live index (the handle is an `Option`); a live
index survives every event other than the delete click unchanged — in
particular a build request while an index is live creates no second one — and
an event can only lead to the no-index state if there was no index before or
the event was the explicit delete click. -/
theorem c8_single_live_index (w : World) (e : Event) (i : Index) :
    (w.session.vector_db = some i → e ≠ Event.deleteClick →
        (step w e).session.vector_db = some i)
  ∧ ((step w e).session.vector_db = none →
        w.session.vector_db = none ∨ e = Event.deleteClick) := by
  constructor
  · intro h hne
    cases e with
    | rerun dir emb => simp [step, buildIfAbsent, h]
    | deleteClick => exact absurd rfl hne
    | chat prompt result =>
        cases result with
        | ok r => simp [step, chatStep, h]
        | error err => simp [step, chatStep, h]
  · intro h
    cases e with
    | rerun dir emb =>
        cases hv : w.session.vector_db with
        | none => exact Or.inl rfl
        | some j => simp [step, buildIfAbsent, hv] at h
    | deleteClick => exact Or.inr rfl
    | chat prompt result =>
        cases hv : w.session.vector_db with
        | none => exact Or.inl rfl
        | some j =>
            cases result with
            | ok r => simp [step, chatStep, hv] at h
            | error err => simp [step, chatStep, hv] at h

/-- C8 (witness): a build request on a world with a live index leaves the same
handle; a world losing its index via the delete click is accounted for by the
delete disjunct. -/
theorem c8_single_live_index_witness :
    (step w1 (Event.rerun [] "m")).session.vector_db = some idx1
  ∧ (w0.session.vector_db = none ∨ Event.deleteClick = Event.deleteClick) :=
  ⟨(c8_single_live_index w1 (Event.rerun [] "m") idx1).1 rfl
      (fun hh => Event.noConfusion hh),
   (c8_single_live_index w0 Event.deleteClick idx1).2 rfl⟩

/-- C9: calling `delete_vector_db` on an absent handle does not crash (the
handler is total and returns normally): it leaves the whole world — vector
store and every session-state field — unchanged, shows the error message and no
success message. -/
theorem c9_destroy_absent_noop (w : World) :
    (delete_vector_db none w).world = w
  ∧ (delete_vector_db none w).uiError = some "No vector database found to delete."
  ∧ (delete_vector_db none w).uiSuccess = none :=
  ⟨rfl, rfl, rfl⟩

/-- C10: whenever the build step creates an index — for every session state,
every corpus directory and every embedding-model selection — the index is built
under the single fixed collection name "myRAG". -/
theorem c10_fixed_collection_name (w : World) (dir : List (String × String))
    (emb : String) (i : Index) (h0 : w.session.vector_db = none)
    (h1 : (step w (Event.rerun dir emb)).session.vector_db = some i) :
    i.collection_name = "myRAG" := by
  cases hd : (load_documents dir).isEmpty with
  | true => simp [step, buildIfAbsent, h0, hd] at h1
  | false =>
      simp [step, buildIfAbsent, h0, hd] at h1
      rw [← h1]

/-- C10 (witness): the statement evaluated on a fresh session building from the
scenario corpus directory. -/
theorem c10_fixed_collection_name_witness : idx2.collection_name = "myRAG" :=
  c10_fixed_collection_name w0 dir1 "nomic" idx2 rfl (by decide)

end RagApp
